import Mathlib

/-!
# BME688 firmware: bus bridge, delay callback and acquisition loop

A shallow embedding of `bme688-project/firmware/main/firmware.c`.

* Machine integers are `Nat` / `Int`; `uint32_t` arithmetic is written with an
  explicit `% UINT32_MOD`.
* Calls into the environment (I2C driver, FreeRTOS, ROM delay, Bosch engine,
  `printf`) are recorded as a trace of `Event`s; what the environment answers
  is an input (`StartupEnv`, `CycleEnv`, the `bus` response function).
* The endless `while (1)` loop is unrolled over a finite list of per-cycle
  environment answers: the trace of its first `cycles.length` iterations.
* Header constants that are not part of the source file (`ESP_OK`,
  `BME68X_OK`) are parameters bundled in `Hdr`; enumerators such as
  `BME68X_OS_2X` are kept symbolic.
-/

namespace Firmware

/-! ## Constants of the source file -/

/-- Source: `#define SDA_PIN 2`. -/
def SDA_PIN : Nat := 2
/-- Source: `#define SCL_PIN 3`. -/
def SCL_PIN : Nat := 3
/-- Source: `#define SENSOR_ADDR 0x77`. -/
def SENSOR_ADDR : Nat := 0x77
/-- Source: `#define I2C_FREQ 100000`. -/
def I2C_FREQ : Nat := 100000
/-- Source: `#define TIMEOUT_MS 50`. -/
def TIMEOUT_MS : Nat := 50

/-- Number of values of a `uint32_t`. -/
def UINT32_MOD : Nat := 2 ^ 32

/-- Values of the header constants the source compares return codes with.
They come from `esp_err.h` and `bme68x_defs.h`, which are not in the source
file, so every definition takes them as a parameter. -/
structure Hdr where
  ESP_OK : Int
  BME68X_OK : Int
  deriving DecidableEq, Repr

/-! ## Symbolic enumerators of the Bosch header -/

/-- Oversampling enumerators used by `app_main`. -/
inductive Oversampling
  | BME68X_OS_2X
  | BME68X_OS_4X
  | BME68X_OS_8X
  deriving DecidableEq, Repr

/-- Filter enumerator used by `app_main`. -/
inductive FilterSetting
  | BME68X_FILTER_OFF
  deriving DecidableEq, Repr

/-- Operating mode enumerator used by `app_main`. -/
inductive OpMode
  | BME68X_FORCED_MODE
  deriving DecidableEq, Repr

/-- Source: `struct bme68x_conf`, the fields `app_main` assigns. -/
structure bme68x_conf where
  os_hum : Oversampling
  os_pres : Oversampling
  os_temp : Oversampling
  filter : FilterSetting
  deriving DecidableEq, Repr

/-- Source: `struct bme68x_heatr_conf`, the fields `app_main` assigns.
`enable` holds whether the field was set to `BME68X_ENABLE`; `heatr_temp` and
`heatr_dur` are `uint16_t`. -/
structure bme68x_heatr_conf where
  enable : Bool
  heatr_temp : Nat
  heatr_dur : Nat
  deriving DecidableEq, Repr

/-- Source: `struct bme68x_data`, the fields the loop prints. The fields are
`float` in the source; each is carried as the rational number the float value
denotes, and the model performs no arithmetic on them. -/
structure bme68x_data where
  temperature : ℚ
  humidity : ℚ
  pressure : ℚ
  gas_resistance : ℚ
  deriving DecidableEq

/-- Source: `i2c_master_bus_config_t bus_cfg`, its numeric and boolean fields
(`i2c_port` and `clk_source` are symbolic header values). -/
structure i2c_master_bus_config_t where
  sda_io_num : Nat
  scl_io_num : Nat
  glitch_ignore_cnt : Nat
  enable_internal_pullup : Bool
  deriving DecidableEq, Repr

/-- Source: `i2c_device_config_t dev_cfg`. -/
structure i2c_device_config_t where
  device_address : Nat
  scl_speed_hz : Nat
  disable_ack_check : Bool
  deriving DecidableEq, Repr

/-! ## Trace of calls into the environment -/

/-- One call the firmware makes into its environment.
`vTaskDelay_ms m` stands for `vTaskDelay(pdMS_TO_TICKS(m))`: the tick
conversion is a FreeRTOS header definition outside the source file, so the
event records the millisecond count handed to it.
`printf_data ts t h p g` stands for the data line
`printf(fmt, ts, t, h, p / 100.0f, g)`: the division is a `float` operation,
which is not evaluated, so the event records its operand `p`, the field
`data[0].pressure`. -/
inductive Event
  | i2c_new_master_bus (cfg : i2c_master_bus_config_t)
  | i2c_master_bus_add_device (cfg : i2c_device_config_t)
  | i2c_master_transmit (buf : List Nat) (timeout_ms : Nat)
  | i2c_master_transmit_receive (wr : List Nat) (rd_len : Nat) (timeout_ms : Nat)
  | printf (text : String)
  | printf_chip_id (id : Nat)
  | printf_data (timestamp_ms : Nat) (temperature humidity pressure gas : ℚ)
  | bme68x_init
  | bme68x_set_conf (conf : bme68x_conf)
  | bme68x_set_heatr_conf (mode : OpMode) (heat : bme68x_heatr_conf)
  | bme68x_get_meas_dur (mode : OpMode) (conf : bme68x_conf)
  | bme68x_set_op_mode (mode : OpMode)
  | bme68x_get_data (mode : OpMode)
  | vTaskDelay_ms (ms : Nat)
  | esp_rom_delay_us (us : Nat)
  deriving DecidableEq

/-! ## Bridge callbacks -/

/-- Source: `bme_user_read`. One combined write-address/read-data transaction;
`e` is what `i2c_master_transmit_receive` returns. The result is the trace and
the `int8_t` return value. -/
def bme_user_read (hd : Hdr) (e : Int) (reg_addr : Nat) (len : Nat) : List Event × Int :=
  ([Event.i2c_master_transmit_receive [reg_addr] len TIMEOUT_MS],
    if e = hd.ESP_OK then 0 else -1)

/-- Assignment `buf[i] = v` into a C array of fixed size: `none` when the
index is outside the array. -/
def store (buf : List Nat) (i : Nat) (v : Nat) : Option (List Nat) :=
  if i < buf.length then some (buf.set i v) else none

/-- The C library call `memcpy(&dst[off], src, n)`: `none` when it would write
past the end of `dst` or read past the end of `src`. -/
def memcpy (dst : List Nat) (off : Nat) (src : List Nat) (n : Nat) : Option (List Nat) :=
  if off + n ≤ dst.length ∧ n ≤ src.length then
    some (dst.take off ++ src.take n ++ dst.drop (off + n))
  else none

/-- Source: `bme_user_write`. `bus buf timeout` is what `i2c_master_transmit`
answers for the bytes it is handed; `reg_data` is the memory the payload
pointer refers to and `len` the requested length. The stack buffer
`uint8_t buf[1 + 32]` starts with unspecified content, taken as zeros. The
result is `none` when an array access is out of range, otherwise the trace of
bus transactions and the `int8_t` return value. -/
def bme_user_write (hd : Hdr) (bus : List Nat → Nat → Int)
    (reg_addr : Nat) (reg_data : List Nat) (len : Nat) : Option (List Event × Int) :=
  let buf := List.replicate (1 + 32) 0
  if len > 32 then
    some ([], -1)
  else
    (store buf 0 reg_addr).bind fun buf1 =>
    (memcpy buf1 1 reg_data len).bind fun buf2 =>
      let tx := buf2.take (1 + len)
      let e := bus tx TIMEOUT_MS
      some ([Event.i2c_master_transmit tx TIMEOUT_MS], if e = hd.ESP_OK then 0 else -1)

/-- Source: `bme_user_delay_us`. `(us + 999) / 1000` is evaluated in
`uint32_t`, so the sum is reduced modulo `UINT32_MOD`. -/
def bme_user_delay_us (us : Nat) : List Event :=
  if us ≥ 1000 then
    [Event.vTaskDelay_ms ((us + 999) % UINT32_MOD / 1000)]
  else
    [Event.esp_rom_delay_us us]

/-! ## Acquisition loop -/

/-- What the environment answers during one iteration of the `while (1)` loop.
`set_op_mode` and `get_data` are the return codes of the two engine calls,
`n` the value of the local `n` after `bme68x_get_data` (a `uint8_t`, 0 when
the engine leaves it alone), `data0` the content of `data[0]` after the call
(`data[1]` and `data[2]` are never read), and `timestamp_ms` the value of
`(unsigned long)(xTaskGetTickCount() * portTICK_PERIOD_MS)` at the `printf`. -/
structure CycleEnv where
  set_op_mode : Int
  get_data : Int
  n : Nat
  data0 : bme68x_data
  timestamp_ms : Nat
  deriving DecidableEq

/-- Trace of one loop iteration together with `warmup_samples` after it. -/
structure CycleResult where
  trace : List Event
  warmup_samples : Int
  deriving DecidableEq

/-- Source: the argument of `dev.delay_us` in the loop,
`meas_us + (uint32_t)heat.heatr_dur * 1000U`, in `uint32_t` arithmetic. -/
def loop_wait (heat : bme68x_heatr_conf) (meas_us : Nat) : Nat :=
  (meas_us + (heat.heatr_dur % UINT32_MOD) * 1000 % UINT32_MOD) % UINT32_MOD

/-- Source: the body of the `while (1)` loop of `app_main`, run once from the
loop state `warmup_samples`. `dev.delay_us` is `bme_user_delay_us`, which
`app_main` stored in `dev` before the engine was initialised. -/
def loop_cycle (hd : Hdr) (heat : bme68x_heatr_conf) (meas_us : Nat)
    (warmup_samples : Int) (c : CycleEnv) : CycleResult :=
  let trigger :=
    [Event.bme68x_set_op_mode OpMode.BME68X_FORCED_MODE]
      ++ bme_user_delay_us (loop_wait heat meas_us)
      ++ [Event.bme68x_get_data OpMode.BME68X_FORCED_MODE]
  let pause := [Event.vTaskDelay_ms 2000]
  if c.get_data = hd.BME68X_OK ∧ c.n > 0 then
    if warmup_samples > 0 then
      { trace := trigger ++ pause, warmup_samples := warmup_samples - 1 }
    else
      { trace := trigger
          ++ [Event.printf_data c.timestamp_ms c.data0.temperature c.data0.humidity
                c.data0.pressure c.data0.gas_resistance]
          ++ pause,
        warmup_samples := warmup_samples }
  else
    { trace := trigger ++ pause, warmup_samples := warmup_samples }

/-- Source: the `while (1)` loop of `app_main`, unrolled over the environment
answers of its first iterations. Returns the trace of these iterations and
`warmup_samples` after the last of them. -/
def measurement_loop (hd : Hdr) (heat : bme68x_heatr_conf) (meas_us : Nat) :
    Int → List CycleEnv → List Event × Int
  | warmup_samples, [] => ([], warmup_samples)
  | warmup_samples, c :: cs =>
    let r := loop_cycle hd heat meas_us warmup_samples c
    let rest := measurement_loop hd heat meas_us r.warmup_samples cs
    (r.trace ++ rest.1, rest.2)

/-! ## Startup -/

/-- What the environment answers during startup: the return codes of the two
I2C setup calls, the byte `id` after the identity read, the return codes of
the three engine setup calls and the value of `bme68x_get_meas_dur` (a
`uint32_t`). -/
structure StartupEnv where
  new_master_bus : Int
  add_device : Int
  chip_id : Nat
  init : Int
  set_conf : Int
  set_heatr_conf : Int
  meas_us : Nat
  deriving DecidableEq, Repr

/-- Trace of `app_main` and whether it executed a `return`. With
`returned = false` the function is still inside `while (1)` after the
iterations that were supplied. -/
structure MainResult where
  trace : List Event
  returned : Bool
  deriving DecidableEq

/-- Source: the initialiser of `bus_cfg`. -/
def bus_cfg : i2c_master_bus_config_t :=
  { sda_io_num := SDA_PIN, scl_io_num := SCL_PIN, glitch_ignore_cnt := 7,
    enable_internal_pullup := true }

/-- Source: the initialiser of `dev_cfg`. -/
def dev_cfg : i2c_device_config_t :=
  { device_address := SENSOR_ADDR, scl_speed_hz := I2C_FREQ, disable_ack_check := false }

/-- Source: `conf` after step 5 of `app_main`. -/
def conf : bme68x_conf :=
  { os_hum := Oversampling.BME68X_OS_2X, os_pres := Oversampling.BME68X_OS_4X,
    os_temp := Oversampling.BME68X_OS_8X, filter := FilterSetting.BME68X_FILTER_OFF }

/-- Source: `heat` after step 6 of `app_main`. -/
def heat : bme68x_heatr_conf :=
  { enable := true, heatr_temp := 320, heatr_dur := 150 }

/-- Source: the CSV header line printed before the loop. -/
def csv_header : String :=
  "timestamp_ms;temperature_C;humidity_pct;pressure_hPa;gas_ohm\n"

/-- Source: `app_main`. `s` holds the environment answers of startup and
`cycles` those of the first loop iterations. -/
def app_main (hd : Hdr) (s : StartupEnv) (cycles : List CycleEnv) : MainResult :=
  let t1 := [Event.i2c_new_master_bus bus_cfg]
  if s.new_master_bus ≠ hd.ESP_OK then
    { trace := t1 ++ [Event.printf "I2C bus init failed\n"], returned := true }
  else
    let t2 := t1 ++ [Event.i2c_master_bus_add_device dev_cfg]
    if s.add_device ≠ hd.ESP_OK then
      { trace := t2 ++ [Event.printf "Add device failed\n"], returned := true }
    else
      let t3 := t2 ++ [Event.i2c_master_transmit_receive [0xD0] 1 TIMEOUT_MS,
                       Event.printf_chip_id s.chip_id]
      let t4 := t3 ++ [Event.bme68x_init]
      if s.init ≠ hd.BME68X_OK then
        { trace := t4 ++ [Event.printf "bme68x_init failed\n"], returned := true }
      else
        let t7 := t4 ++ [Event.bme68x_set_conf conf,
                         Event.bme68x_set_heatr_conf OpMode.BME68X_FORCED_MODE heat,
                         Event.bme68x_get_meas_dur OpMode.BME68X_FORCED_MODE conf,
                         Event.printf csv_header]
        { trace := t7 ++ (measurement_loop hd heat s.meas_us 1 cycles).1, returned := false }

/-! ## Observations on traces -/

/-- A data line of the output stream. -/
def isDataLine : Event → Bool
  | Event.printf_data _ _ _ _ _ => true
  | _ => false

/-- Any line written to the output stream. -/
def isOutputLine : Event → Bool
  | Event.printf _ => true
  | Event.printf_chip_id _ => true
  | Event.printf_data _ _ _ _ _ => true
  | _ => false

/-- A transaction on the I2C bus. -/
def isBusTransaction : Event → Bool
  | Event.i2c_master_transmit _ _ => true
  | Event.i2c_master_transmit_receive _ _ _ => true
  | _ => false

/-- A call into the Bosch measurement engine. -/
def isEngineCall : Event → Bool
  | Event.bme68x_init => true
  | Event.bme68x_set_conf _ => true
  | Event.bme68x_set_heatr_conf _ _ => true
  | Event.bme68x_get_meas_dur _ _ => true
  | Event.bme68x_set_op_mode _ => true
  | Event.bme68x_get_data _ => true
  | _ => false

/-- A delay request (coarse sleep or busy-wait). -/
def isDelay : Event → Bool
  | Event.vTaskDelay_ms _ => true
  | Event.esp_rom_delay_us _ => true
  | _ => false

/-- Number of data lines in a trace. -/
def dataLines (t : List Event) : Nat := t.countP isDataLine

/-- Number of output lines of any kind in a trace. -/
def outputLines (t : List Event) : Nat := t.countP isOutputLine

/-- A cycle is successful when `bme68x_get_data` returns `BME68X_OK` with
`n > 0`. -/
def successful (hd : Hdr) (c : CycleEnv) : Bool :=
  decide (c.get_data = hd.BME68X_OK ∧ c.n > 0)

/-- Number of successful cycles in a sequence of cycles. -/
def successes (hd : Hdr) (cs : List CycleEnv) : Nat := cs.countP (successful hd)

/-- The delay a requested microsecond count stands for, in microseconds:
a busy-wait counts as is, a coarse sleep of `m` ms as `1000 * m`. -/
def delivered_us : List Event → Nat
  | [] => 0
  | Event.vTaskDelay_ms m :: t => 1000 * m + delivered_us t
  | Event.esp_rom_delay_us us :: t => us + delivered_us t
  | _ :: t => delivered_us t

/-- The spec-side rounding: `us` rounded up to whole milliseconds, over the
natural numbers (no wrap-around). -/
def ceil_ms (us : Nat) : Nat := (us + 999) / 1000

/-! ## Concrete inputs used below -/

/-- Header values as ESP-IDF and the Bosch driver define them. -/
def hd0 : Hdr := { ESP_OK := 0, BME68X_OK := 0 }

/-- A sample close to the end-to-end scenario of the spec, with values a
`float` holds exactly. -/
def sample0 : bme68x_data :=
  { temperature := 45 / 2, humidity := 361 / 8, pressure := 101325, gas_resistance := 50000 }

/-- A cycle in which both engine calls succeed and one sample is returned. -/
def cycle_ok : CycleEnv :=
  { set_op_mode := 0, get_data := 0, n := 1, data0 := sample0, timestamp_ms := 4000 }

/-- A cycle in which `bme68x_get_data` reports no sample. -/
def cycle_empty : CycleEnv :=
  { set_op_mode := 0, get_data := 2, n := 0, data0 := sample0, timestamp_ms := 0 }

/-- A cycle in which the trigger fails and `bme68x_get_data` still succeeds. -/
def cycle_trigger_failed : CycleEnv :=
  { set_op_mode := -2, get_data := 0, n := 1, data0 := sample0, timestamp_ms := 6000 }

/-- A cycle in which `bme68x_get_data` fails. -/
def cycle_fetch_failed : CycleEnv :=
  { set_op_mode := 0, get_data := -2, n := 1, data0 := sample0, timestamp_ms := 0 }

/-- Startup in which every call succeeds. -/
def startup_ok : StartupEnv :=
  { new_master_bus := 0, add_device := 0, chip_id := 0x61, init := 0, set_conf := 0,
    set_heatr_conf := 0, meas_us := 20000 }

/-- Startup in which the engine rejects the configuration. -/
def startup_conf_rejected : StartupEnv :=
  { startup_ok with set_conf := -4 }

/-- Startup in which bus creation fails. -/
def startup_bus_failed : StartupEnv :=
  { startup_ok with new_master_bus := 0x103 }

/-- A bus that acknowledges every transmit. -/
def bus_ack : List Nat → Nat → Int := fun _ _ => 0

/-! ## Shared lemmas -/

theorem store_zero_replicate (v : Nat) :
    store (List.replicate (1 + 32) 0) 0 v = some (v :: List.replicate 32 0) := by
  simp [store, List.replicate]

theorem memcpy_after_addr_gen (v : Nat) (reg_data : List Nat) (len n : Nat)
    (hlen : len ≤ n) (hdata : len ≤ reg_data.length) :
    memcpy (v :: List.replicate n 0) 1 reg_data len =
      some (v :: (reg_data.take len ++ List.replicate (n - len) 0)) := by
  have h1 : 1 + len ≤ (v :: List.replicate n 0).length := by
    simp only [List.length_cons, List.length_replicate]; omega
  have h2 : List.drop (1 + len) (v :: List.replicate n 0) = List.replicate (n - len) 0 := by
    rw [Nat.add_comm, List.drop_succ_cons, List.drop_replicate]
  simp only [memcpy, h1, hdata, and_self, if_true, h2]
  simp

theorem memcpy_after_addr (v : Nat) (reg_data : List Nat) (len : Nat)
    (hlen : len ≤ 32) (hdata : len ≤ reg_data.length) :
    memcpy (v :: List.replicate 32 0) 1 reg_data len =
      some (v :: (reg_data.take len ++ List.replicate (32 - len) 0)) :=
  memcpy_after_addr_gen v reg_data len 32 hlen hdata

theorem take_tx (v : Nat) (reg_data : List Nat) (len : Nat) (hdata : len ≤ reg_data.length) :
    (v :: (reg_data.take len ++ List.replicate (32 - len) 0)).take (1 + len)
      = v :: reg_data.take len := by
  rw [Nat.add_comm, List.take_succ_cons]
  congr 1
  rw [List.take_append_of_le_length (by simp [hdata])]
  simp

/-- The rounding `ceil_ms` is the ceiling of `us / 1000` over the rationals. -/
theorem ceil_ms_eq_ceil (us : Nat) : ceil_ms us = ⌈(us : ℚ) / 1000⌉₊ := by
  unfold ceil_ms
  apply le_antisymm
  · by_cases h0 : (us + 999) / 1000 = 0
    · omega
    · have hlt : (us + 999) / 1000 - 1 < ⌈(us : ℚ) / 1000⌉₊ := by
        rw [Nat.lt_ceil, lt_div_iff₀ (by norm_num)]
        have : ((us + 999) / 1000 - 1) * 1000 < us := by omega
        exact_mod_cast this
      omega
  · rw [Nat.ceil_le, div_le_iff₀ (by norm_num)]
    have : us ≤ (us + 999) / 1000 * 1000 := by omega
    exact_mod_cast this

/-- In the range where `us + 999` does not wrap, the coarse sleep gets the
rounded-up millisecond count. -/
theorem delay_coarse_in_range (us : Nat) (h1 : 1000 ≤ us) (h2 : us + 999 < UINT32_MOD) :
    bme_user_delay_us us = [Event.vTaskDelay_ms (ceil_ms us)] := by
  simp [bme_user_delay_us, ceil_ms, h1, Nat.mod_eq_of_lt h2]

/-- Below the threshold the delay is one busy-wait of exactly `us`. -/
theorem delay_busy_wait (us : Nat) (h : us < 1000) :
    bme_user_delay_us us = [Event.esp_rom_delay_us us] := by
  have : ¬ 1000 ≤ us := by omega
  simp [bme_user_delay_us, this]

/-- In the range where `us + 999` does not wrap, the delay is not
under-delivered. -/
theorem delay_not_under_in_range (us : Nat) (h2 : us + 999 < UINT32_MOD) :
    us ≤ delivered_us (bme_user_delay_us us) := by
  by_cases h1 : 1000 ≤ us
  · rw [delay_coarse_in_range us h1 h2]
    simp only [delivered_us, ceil_ms]
    omega
  · rw [delay_busy_wait us (by omega)]
    simp [delivered_us]

/-- The delay callback writes nothing to the output stream. -/
theorem countP_output_delay (us : Nat) :
    (bme_user_delay_us us).countP isOutputLine = 0 := by
  unfold bme_user_delay_us
  split <;> simp [isOutputLine]

/-- The delay callback emits no data line. -/
theorem countP_data_delay (us : Nat) :
    (bme_user_delay_us us).countP isDataLine = 0 := by
  unfold bme_user_delay_us
  split <;> simp [isDataLine]

/-- Data lines of one cycle: one when the cycle is successful and the warm-up
counter is exhausted, none otherwise. -/
theorem cycle_dataLines (hd : Hdr) (ht : bme68x_heatr_conf) (meas_us : Nat) (w : Int)
    (c : CycleEnv) :
    dataLines (loop_cycle hd ht meas_us w c).trace
      = if successful hd c = true ∧ w ≤ 0 then 1 else 0 := by
  unfold loop_cycle successful dataLines
  by_cases hs : c.get_data = hd.BME68X_OK ∧ c.n > 0
  · by_cases hw : w > 0
    · have hw2 : ¬ w ≤ 0 := by omega
      simp [hs, hw, hw2, countP_data_delay, isDataLine]
    · have hw2 : w ≤ 0 := by omega
      simp [hs, hw, hw2, countP_data_delay, isDataLine]
  · simp [hs, countP_data_delay, isDataLine]

/-- Warm-up counter after one cycle: decremented when the cycle is successful
and the counter is positive, unchanged otherwise. -/
theorem cycle_warmup (hd : Hdr) (ht : bme68x_heatr_conf) (meas_us : Nat) (w : Int)
    (c : CycleEnv) :
    (loop_cycle hd ht meas_us w c).warmup_samples
      = if successful hd c = true ∧ w > 0 then w - 1 else w := by
  unfold loop_cycle successful
  by_cases hs : c.get_data = hd.BME68X_OK ∧ c.n > 0
  · by_cases hw : w > 0
    · simp [hs, hw]
    · simp [hs, hw]
  · simp [hs]

/-- Unfolding of the loop at its first iteration. -/
theorem measurement_loop_cons (hd : Hdr) (ht : bme68x_heatr_conf) (meas_us : Nat) (w : Int)
    (c : CycleEnv) (cs : List CycleEnv) :
    measurement_loop hd ht meas_us w (c :: cs)
      = ((loop_cycle hd ht meas_us w c).trace
            ++ (measurement_loop hd ht meas_us (loop_cycle hd ht meas_us w c).warmup_samples cs).1,
         (measurement_loop hd ht meas_us (loop_cycle hd ht meas_us w c).warmup_samples cs).2) := by
  simp [measurement_loop]

/-- Data lines and final counter of the loop from any counter value `w`:
after `k` successful cycles `k - w` lines were emitted (none while `k <= w`),
and the counter went down by `min w k`. -/
theorem loop_count (hd : Hdr) (ht : bme68x_heatr_conf) (meas_us : Nat) :
    ∀ (cs : List CycleEnv) (w : Int),
      dataLines (measurement_loop hd ht meas_us w cs).1 = successes hd cs - w.toNat
        ∧ (measurement_loop hd ht meas_us w cs).2
            = w - ((min w.toNat (successes hd cs) : Nat) : Int) := by
  intro cs
  induction cs with
  | nil => intro w; simp [measurement_loop, dataLines, successes]
  | cons c cs ih =>
    intro w
    rw [measurement_loop_cons]
    have hd1 := cycle_dataLines hd ht meas_us w c
    have hw1 := cycle_warmup hd ht meas_us w c
    obtain ⟨ih1, ih2⟩ := ih (loop_cycle hd ht meas_us w c).warmup_samples
    have hsucc : successes hd (c :: cs)
        = successes hd cs + (if successful hd c = true then 1 else 0) := by
      simp [successes, List.countP_cons]
    simp only [dataLines, List.countP_append] at hd1 ih1 ⊢
    rw [ih1, ih2, hd1, hsucc]
    generalize (loop_cycle hd ht meas_us w c).warmup_samples = w2 at hw1
    generalize successes hd cs = k
    subst hw1
    by_cases hs : successful hd c = true
    · by_cases hw : w > 0
      · have hw2 : ¬ w ≤ 0 := by omega
        simp only [hs, hw, hw2, and_true, and_false, true_and, if_true, if_false]
        omega
      · have hw2 : w ≤ 0 := by omega
        simp only [hs, hw, hw2, and_true, and_false, true_and, if_true, if_false]
        omega
    · simp only [hs, Bool.false_eq_true, false_and, if_false]
      omega

/-! ## Claims on the bus bridge -/

/-- C3: for every register address and every write request whose payload
length `len` exceeds 32, `bme_user_write` returns -1 and the trace of bus
transactions is empty (`i2c_master_transmit` is never invoked). -/
theorem C3_write_rejects_long_payload (hd : Hdr) (bus : List Nat → Nat → Int)
    (reg_addr : Nat) (reg_data : List Nat) (len : Nat) (h : len > 32) :
    bme_user_write hd bus reg_addr reg_data len = some ([], -1) := by
  simp [bme_user_write, h]

theorem C3_write_rejects_long_payload_witness :
    33 > 32 ∧ bme_user_write hd0 bus_ack 0x74 (List.replicate 33 7) 33 = some ([], -1) :=
  ⟨by decide, C3_write_rejects_long_payload hd0 bus_ack 0x74 (List.replicate 33 7) 33 (by decide)⟩

/-- C4: for every register address and every payload of `len <= 32` bytes,
`bme_user_write` stays inside its 33-byte buffer (the result is not `none`),
issues exactly one bus transaction whose buffer is the register address
followed by the `len` payload bytes in order, of length `1 + len`, and returns
0 when that transaction answers `ESP_OK` and -1 otherwise. -/
theorem C4_write_single_transaction (hd : Hdr) (bus : List Nat → Nat → Int)
    (reg_addr : Nat) (reg_data : List Nat) (len : Nat)
    (hlen : len ≤ 32) (hdata : len ≤ reg_data.length) :
    bme_user_write hd bus reg_addr reg_data len =
        some ([Event.i2c_master_transmit (reg_addr :: reg_data.take len) TIMEOUT_MS],
              if bus (reg_addr :: reg_data.take len) TIMEOUT_MS = hd.ESP_OK then 0 else -1)
      ∧ (reg_addr :: reg_data.take len).length = 1 + len := by
  constructor
  · have hn : ¬ len > 32 := by omega
    simp only [bme_user_write, hn, if_false, store_zero_replicate, Option.some_bind,
      memcpy_after_addr reg_addr reg_data len hlen hdata, take_tx reg_addr reg_data len hdata]
  · simp [List.length_take, hdata]; omega

theorem C4_write_single_transaction_witness :
    bme_user_write hd0 bus_ack 0x74 [0x8D, 0x59] 2 =
        some ([Event.i2c_master_transmit [0x74, 0x8D, 0x59] TIMEOUT_MS], 0)
      ∧ [0x74, 0x8D, 0x59].length = 1 + 2 :=
  C4_write_single_transaction hd0 bus_ack 0x74 [0x8D, 0x59] 2 (by decide) (by decide)

/-! ## Claims on the delay callback -/

/-- C5 (evaluation at the failing input): for `us = 4294967295`, a valid
`uint32_t`, the sum `us + 999` wraps to 998, so the coarse sleep is handed
0 ms and the delay delivered is 0 microseconds, less than `us`. For every `us`
whose sum `us + 999` fits a `uint32_t` the delay is not under-delivered. -/
theorem C5_delay_under_delivered_at_wrap :
    4294967295 < UINT32_MOD
      ∧ bme_user_delay_us 4294967295 = [Event.vTaskDelay_ms 0]
      ∧ delivered_us (bme_user_delay_us 4294967295) < 4294967295
      ∧ (∀ us : Nat, us + 999 < UINT32_MOD → us ≤ delivered_us (bme_user_delay_us us)) := by
  refine ⟨by decide, by decide, by decide, delay_not_under_in_range⟩

/-- C6 (evaluation at the failing input): for `us = 4294966297`, a valid
`uint32_t` at or above the threshold, the coarse sleep is handed 0 ms while
`us` rounded up to whole milliseconds is 4294967. The rest of the claim holds:
below 1000 the delay is one busy-wait of exactly `us`; from 1000 on, while
`us + 999` fits a `uint32_t`, it is one coarse sleep of `us / 1000` rounded
up; 1500 gives a coarse sleep of 2 ms and 200 a busy-wait of 200. -/
theorem C6_delay_rounding_wraps :
    4294966297 < UINT32_MOD ∧ 1000 ≤ 4294966297
      ∧ bme_user_delay_us 4294966297 = [Event.vTaskDelay_ms 0]
      ∧ ⌈(4294966297 : ℚ) / 1000⌉₊ = 4294967
      ∧ (∀ us : Nat, us < 1000 → bme_user_delay_us us = [Event.esp_rom_delay_us us])
      ∧ (∀ us : Nat, 1000 ≤ us → us + 999 < UINT32_MOD →
          bme_user_delay_us us = [Event.vTaskDelay_ms ⌈(us : ℚ) / 1000⌉₊])
      ∧ bme_user_delay_us 1500 = [Event.vTaskDelay_ms 2]
      ∧ bme_user_delay_us 200 = [Event.esp_rom_delay_us 200] := by
  refine ⟨by decide, by decide, by decide, ?_, delay_busy_wait, ?_, by decide, by decide⟩
  · have h := ceil_ms_eq_ceil 4294966297
    rw [show ((4294966297 : Nat) : ℚ) = (4294966297 : ℚ) by norm_num] at h
    rw [← h]
    decide
  · intro us h1 h2
    rw [delay_coarse_in_range us h1 h2, ceil_ms_eq_ceil]

/-! ## Claims on the acquisition loop -/

/-- Shape of the trace of one cycle: trigger, the delay callback on the loop
wait, fetch, at most one data line, and the 2000 ms pause. -/
theorem cycle_trace (hd : Hdr) (ht : bme68x_heatr_conf) (meas_us : Nat) (w : Int)
    (c : CycleEnv) :
    (loop_cycle hd ht meas_us w c).trace
      = [Event.bme68x_set_op_mode OpMode.BME68X_FORCED_MODE]
          ++ bme_user_delay_us (loop_wait ht meas_us)
          ++ [Event.bme68x_get_data OpMode.BME68X_FORCED_MODE]
          ++ (if successful hd c = true ∧ w ≤ 0 then
                [Event.printf_data c.timestamp_ms c.data0.temperature c.data0.humidity
                  c.data0.pressure c.data0.gas_resistance]
              else [])
          ++ [Event.vTaskDelay_ms 2000] := by
  unfold loop_cycle successful
  by_cases hs : c.get_data = hd.BME68X_OK ∧ c.n > 0
  · by_cases hw : w > 0
    · have hw2 : ¬ w ≤ 0 := by omega
      simp [hs, hw, hw2]
    · have hw2 : w ≤ 0 := by omega
      simp [hs, hw, hw2]
  · simp [hs]

/-- When startup passes the three checked calls, `app_main` prints the header
and runs the loop from `warmup_samples = 1` with the measurement duration the
engine returned. -/
theorem app_main_enters_loop (hd : Hdr) (s : StartupEnv) (cs : List CycleEnv)
    (h1 : s.new_master_bus = hd.ESP_OK) (h2 : s.add_device = hd.ESP_OK)
    (h3 : s.init = hd.BME68X_OK) :
    app_main hd s cs =
      { trace :=
          [Event.i2c_new_master_bus bus_cfg, Event.i2c_master_bus_add_device dev_cfg,
           Event.i2c_master_transmit_receive [0xD0] 1 TIMEOUT_MS,
           Event.printf_chip_id s.chip_id, Event.bme68x_init, Event.bme68x_set_conf conf,
           Event.bme68x_set_heatr_conf OpMode.BME68X_FORCED_MODE heat,
           Event.bme68x_get_meas_dur OpMode.BME68X_FORCED_MODE conf,
           Event.printf csv_header]
            ++ (measurement_loop hd heat s.meas_us 1 cs).1,
        returned := false } := by
  simp [app_main, h1, h2, h3]

/-- Data lines of a whole run of `app_main`. -/
theorem app_main_dataLines (hd : Hdr) (s : StartupEnv) (cs : List CycleEnv) :
    dataLines (app_main hd s cs).trace
      = if (app_main hd s cs).returned = true then 0 else successes hd cs - 1 := by
  by_cases h1 : s.new_master_bus = hd.ESP_OK
  · by_cases h2 : s.add_device = hd.ESP_OK
    · by_cases h3 : s.init = hd.BME68X_OK
      · rw [app_main_enters_loop hd s cs h1 h2 h3]
        have := (loop_count hd heat s.meas_us cs 1).1
        simp only [dataLines, List.countP_append] at this ⊢
        rw [this]
        simp [isDataLine]
      · simp [app_main, h1, h2, h3, dataLines, isDataLine]
    · simp [app_main, h1, h2, dataLines, isDataLine]
  · simp [app_main, h1, dataLines, isDataLine]

/-- C1: warm-up filter. Starting from `warmup_samples = 1`, for every sequence
of cycle outcomes, after `k` successful cycles exactly `max 0 (k - 1)` data
lines have been emitted; the cycle that follows emits one data line when it is
successful and at least one successful cycle came before, and none otherwise
(so the first successful cycle emits nothing and the second exactly one line,
however many unsuccessful cycles are interleaved); the same count holds for
the trace of `app_main` whenever it reaches the loop. -/
theorem C1_warmup_filter (hd : Hdr) (ht : bme68x_heatr_conf) (meas_us : Nat)
    (cs : List CycleEnv) :
    ((dataLines (measurement_loop hd ht meas_us 1 cs).1 : Nat) : Int)
        = max 0 ((successes hd cs : Int) - 1)
      ∧ (∀ c : CycleEnv,
          dataLines (loop_cycle hd ht meas_us (measurement_loop hd ht meas_us 1 cs).2 c).trace
            = if successful hd c = true ∧ 1 ≤ successes hd cs then 1 else 0)
      ∧ (∀ s : StartupEnv,
          dataLines (app_main hd s cs).trace
            = if (app_main hd s cs).returned = true then 0 else successes hd cs - 1) := by
  obtain ⟨h1, h2⟩ := loop_count hd ht meas_us cs 1
  refine ⟨?_, ?_, fun s => app_main_dataLines hd s cs⟩
  · rw [h1]
    have : (1 : Int).toNat = 1 := rfl
    rw [this]
    omega
  · intro c
    rw [cycle_dataLines, h2]
    have : (1 : Int).toNat = 1 := rfl
    rw [this]
    by_cases hk : 1 ≤ successes hd cs
    · have hle : (1 : Int) - ((min 1 (successes hd cs) : Nat) : Int) ≤ 0 := by omega
      simp [hk, hle]
    · have hle : ¬ (1 : Int) - ((min 1 (successes hd cs) : Nat) : Int) ≤ 0 := by omega
      simp [hk, hle]

/-- C2: for every loop state and every cycle in which `bme68x_get_data`
reports zero samples (`n = 0`), the cycle writes no line of any kind to the
output stream and leaves `warmup_samples` exactly as it was. -/
theorem C2_zero_samples_cycle (hd : Hdr) (ht : bme68x_heatr_conf) (meas_us : Nat)
    (w : Int) (c : CycleEnv) (h : c.n = 0) :
    outputLines (loop_cycle hd ht meas_us w c).trace = 0
      ∧ (loop_cycle hd ht meas_us w c).warmup_samples = w := by
  have hs : successful hd c = false := by simp [successful, h]
  constructor
  · rw [cycle_trace]
    simp [hs, outputLines, List.countP_append, countP_output_delay, isOutputLine]
  · rw [cycle_warmup]
    simp [hs]

theorem C2_zero_samples_cycle_witness :
    outputLines (loop_cycle hd0 heat 20000 0 cycle_empty).trace = 0
      ∧ (loop_cycle hd0 heat 20000 0 cycle_empty).warmup_samples = 0 :=
  C2_zero_samples_cycle hd0 heat 20000 0 cycle_empty rfl

/-- Outside the range of the next theorem the `uint32_t` sum wraps: for
`meas_us = 4294817296` the loop wait is 0. -/
theorem loop_wait_wraps :
    4294817296 < UINT32_MOD ∧ loop_wait heat 4294817296 = 0 := by
  refine ⟨by decide, by decide⟩

/-- C7: for every measurement duration `meas_us` the engine can return, that
is every duration whose sum with the heater time fits the `uint32_t` argument
of the delay callback (`meas_us <= 4294817295`, about 71 minutes), every cycle
of the loop, whatever the loop state and the engine answers, invokes the delay
callback between the trigger and the fetch with exactly
`meas_us + heatr_dur * 1000 = meas_us + 150000`. Every iteration of the loop
is such a cycle with the same `meas_us`, and `app_main` hands the loop the one
value `bme68x_get_meas_dur` returned at startup. -/
theorem C7_wait_is_sum (hd : Hdr) (meas_us : Nat) (w : Int) (c : CycleEnv)
    (cs : List CycleEnv) (hfit : meas_us + 150000 < UINT32_MOD) :
    (loop_cycle hd heat meas_us w c).trace
        = [Event.bme68x_set_op_mode OpMode.BME68X_FORCED_MODE]
            ++ bme_user_delay_us (meas_us + heat.heatr_dur * 1000)
            ++ [Event.bme68x_get_data OpMode.BME68X_FORCED_MODE]
            ++ (if successful hd c = true ∧ w ≤ 0 then
                  [Event.printf_data c.timestamp_ms c.data0.temperature c.data0.humidity
                    c.data0.pressure c.data0.gas_resistance]
                else [])
            ++ [Event.vTaskDelay_ms 2000]
      ∧ loop_wait heat meas_us = meas_us + heat.heatr_dur * 1000
      ∧ heat.heatr_dur * 1000 = 150000
      ∧ (measurement_loop hd heat meas_us w (c :: cs)).1
          = (loop_cycle hd heat meas_us w c).trace
              ++ (measurement_loop hd heat meas_us
                    (loop_cycle hd heat meas_us w c).warmup_samples cs).1
      ∧ (∀ s : StartupEnv, (app_main hd s cs).returned = false →
          ∃ startup : List Event,
            (app_main hd s cs).trace = startup ++ (measurement_loop hd heat s.meas_us 1 cs).1
              ∧ startup.countP isDelay = 0) := by
  have hdur : heat.heatr_dur * 1000 = 150000 := by decide
  have hw : loop_wait heat meas_us = meas_us + heat.heatr_dur * 1000 := by
    rw [hdur]
    have : loop_wait heat meas_us = (meas_us + 150000) % UINT32_MOD := by
      simp [loop_wait, heat, UINT32_MOD]
    rw [this, Nat.mod_eq_of_lt hfit]
  refine ⟨?_, hw, hdur, ?_, ?_⟩
  · rw [cycle_trace, hw]
  · rw [measurement_loop_cons]
  · intro s hrun
    by_cases h1 : s.new_master_bus = hd.ESP_OK
    · by_cases h2 : s.add_device = hd.ESP_OK
      · by_cases h3 : s.init = hd.BME68X_OK
        · rw [app_main_enters_loop hd s cs h1 h2 h3]
          exact ⟨_, rfl, by simp [isDelay]⟩
        · simp [app_main, h1, h2, h3] at hrun
      · simp [app_main, h1, h2] at hrun
    · simp [app_main, h1] at hrun

theorem C7_wait_is_sum_witness :
    20000 + 150000 < UINT32_MOD
      ∧ loop_wait heat 20000 = 20000 + heat.heatr_dur * 1000
      ∧ (loop_cycle hd0 heat 20000 0 cycle_ok).trace
          = [Event.bme68x_set_op_mode OpMode.BME68X_FORCED_MODE]
              ++ bme_user_delay_us (20000 + heat.heatr_dur * 1000)
              ++ [Event.bme68x_get_data OpMode.BME68X_FORCED_MODE]
              ++ (if successful hd0 cycle_ok = true ∧ (0 : Int) ≤ 0 then
                    [Event.printf_data cycle_ok.timestamp_ms cycle_ok.data0.temperature
                      cycle_ok.data0.humidity cycle_ok.data0.pressure
                      cycle_ok.data0.gas_resistance]
                  else [])
              ++ [Event.vTaskDelay_ms 2000] :=
  ⟨by decide, (C7_wait_is_sum hd0 20000 0 cycle_ok [] (by decide)).2.1,
    (C7_wait_is_sum hd0 20000 0 cycle_ok [] (by decide)).1⟩

/-- C9 (as stated, refuted): a cycle whose `bme68x_set_op_mode` call fails
still emits one data line when `bme68x_get_data` returns `BME68X_OK` with a
sample and the warm-up counter is 0. -/
theorem C9_trigger_failure_still_emits :
    cycle_trigger_failed.set_op_mode ≠ hd0.BME68X_OK
      ∧ dataLines (loop_cycle hd0 heat 20000 0 cycle_trigger_failed).trace = 1 := by
  refine ⟨by decide, ?_⟩
  rw [cycle_dataLines]
  decide

/-- C9 (amended): for every loop state and every cycle, whatever both engine
calls return:
* when `bme68x_get_data` fails, the cycle emits no data line and leaves the
  warm-up counter alone;
* the return code of `bme68x_set_op_mode` never changes the cycle: replacing
  it by any other code gives the same trace and the same counter, and the
  number of data lines is decided by the `bme68x_get_data` result, `n` and the
  warm-up counter alone;
* the cycle is trigger, wait, fetch, at most one data line, and then always
  the 2000 ms sleep as its last event, after which the loop runs the next
  cycle. -/
theorem C9_cycle_ignores_trigger_code (hd : Hdr) (ht : bme68x_heatr_conf) (meas_us : Nat)
    (w : Int) (c : CycleEnv) (cs : List CycleEnv) :
    (c.get_data ≠ hd.BME68X_OK →
        dataLines (loop_cycle hd ht meas_us w c).trace = 0
          ∧ (loop_cycle hd ht meas_us w c).warmup_samples = w)
      ∧ (∀ rc : Int, loop_cycle hd ht meas_us w { c with set_op_mode := rc }
            = loop_cycle hd ht meas_us w c)
      ∧ dataLines (loop_cycle hd ht meas_us w c).trace
          = (if (c.get_data = hd.BME68X_OK ∧ c.n > 0) ∧ w ≤ 0 then 1 else 0)
      ∧ (loop_cycle hd ht meas_us w c).trace
          = [Event.bme68x_set_op_mode OpMode.BME68X_FORCED_MODE]
              ++ bme_user_delay_us (loop_wait ht meas_us)
              ++ [Event.bme68x_get_data OpMode.BME68X_FORCED_MODE]
              ++ (if (c.get_data = hd.BME68X_OK ∧ c.n > 0) ∧ w ≤ 0 then
                    [Event.printf_data c.timestamp_ms c.data0.temperature c.data0.humidity
                      c.data0.pressure c.data0.gas_resistance]
                  else [])
              ++ [Event.vTaskDelay_ms 2000]
      ∧ (loop_cycle hd ht meas_us w c).trace.getLast? = some (Event.vTaskDelay_ms 2000)
      ∧ (measurement_loop hd ht meas_us w (c :: cs)).1
          = (loop_cycle hd ht meas_us w c).trace
              ++ (measurement_loop hd ht meas_us
                    (loop_cycle hd ht meas_us w c).warmup_samples cs).1 := by
  have hsucc : (successful hd c = true) ↔ (c.get_data = hd.BME68X_OK ∧ c.n > 0) := by
    simp [successful]
  have htrace := cycle_trace hd ht meas_us w c
  simp only [hsucc] at htrace
  have hlines := cycle_dataLines hd ht meas_us w c
  simp only [hsucc] at hlines
  refine ⟨?_, ?_, ?_, htrace, ?_, ?_⟩
  · intro h
    have hs : successful hd c = false := by simp [successful, h]
    constructor
    · rw [cycle_dataLines]; simp [hs]
    · rw [cycle_warmup]; simp [hs]
  · intro rc; rfl
  · exact hlines
  · rw [htrace]
    exact List.getLast?_concat _
  · rw [measurement_loop_cons]

theorem C9_cycle_ignores_trigger_code_witness :
    dataLines (loop_cycle hd0 heat 20000 0 cycle_fetch_failed).trace = 0
      ∧ (loop_cycle hd0 heat 20000 0 cycle_fetch_failed).warmup_samples = 0
      ∧ loop_cycle hd0 heat 20000 0 { cycle_ok with set_op_mode := -2 }
          = loop_cycle hd0 heat 20000 0 cycle_ok
      ∧ dataLines (loop_cycle hd0 heat 20000 0 cycle_trigger_failed).trace = 1
      ∧ (loop_cycle hd0 heat 20000 0 cycle_trigger_failed).trace.getLast?
          = some (Event.vTaskDelay_ms 2000) :=
  ⟨((C9_cycle_ignores_trigger_code hd0 heat 20000 0 cycle_fetch_failed []).1 (by decide)).1,
   ((C9_cycle_ignores_trigger_code hd0 heat 20000 0 cycle_fetch_failed []).1 (by decide)).2,
   (C9_cycle_ignores_trigger_code hd0 heat 20000 0 cycle_ok []).2.1 (-2),
   by
    rw [(C9_cycle_ignores_trigger_code hd0 heat 20000 0 cycle_trigger_failed []).2.2.1]
    decide,
   (C9_cycle_ignores_trigger_code hd0 heat 20000 0 cycle_trigger_failed []).2.2.2.2.1⟩

/-! ## Claims on startup -/

/-- C8 (evaluation at the failing input): when `bme68x_set_conf` answers the
failure code -4 and every other call succeeds, `app_main` does not return: it
goes on to the heater configuration, prints the CSV header, issues the
forced-mode trigger and runs the loop. More generally the two configuration
return codes never change what `app_main` does. -/
theorem C8_config_error_not_checked :
    startup_conf_rejected.set_conf ≠ hd0.BME68X_OK
      ∧ app_main hd0 startup_conf_rejected [cycle_ok] =
          { trace :=
              [Event.i2c_new_master_bus bus_cfg, Event.i2c_master_bus_add_device dev_cfg,
               Event.i2c_master_transmit_receive [0xD0] 1 TIMEOUT_MS,
               Event.printf_chip_id 0x61, Event.bme68x_init, Event.bme68x_set_conf conf,
               Event.bme68x_set_heatr_conf OpMode.BME68X_FORCED_MODE heat,
               Event.bme68x_get_meas_dur OpMode.BME68X_FORCED_MODE conf,
               Event.printf csv_header,
               Event.bme68x_set_op_mode OpMode.BME68X_FORCED_MODE,
               Event.vTaskDelay_ms 170,
               Event.bme68x_get_data OpMode.BME68X_FORCED_MODE,
               Event.vTaskDelay_ms 2000],
            returned := false }
      ∧ (∀ (hd : Hdr) (s : StartupEnv) (cs : List CycleEnv) (rc1 rc2 : Int),
          app_main hd { s with set_conf := rc1, set_heatr_conf := rc2 } cs = app_main hd s cs) := by
  refine ⟨by decide, ?_, fun hd s cs rc1 rc2 => rfl⟩
  rw [app_main_enters_loop hd0 startup_conf_rejected [cycle_ok] rfl rfl rfl]
  have hw : loop_wait heat 20000 = 170000 := by decide
  have hd : bme_user_delay_us 170000 = [Event.vTaskDelay_ms 170] := by decide
  have hs : successful hd0 cycle_ok = true := by decide
  have hm : startup_conf_rejected.meas_us = 20000 := rfl
  have hc : startup_conf_rejected.chip_id = 0x61 := rfl
  simp [measurement_loop, cycle_trace, hw, hd, hs, hm, hc]

/-- C10: if bus creation or device registration fails, `app_main` returns with
a trace that consists of the setup calls made so far followed by exactly one
report line; it holds no bus transaction, no engine call, no CSV header and no
delay or other event of a loop iteration. -/
theorem C10_bus_setup_failure_fatal (hd : Hdr) (s : StartupEnv) (cs : List CycleEnv)
    (h : s.new_master_bus ≠ hd.ESP_OK ∨ s.add_device ≠ hd.ESP_OK) :
    (app_main hd s cs).returned = true
      ∧ (app_main hd s cs).trace
          = (if s.new_master_bus ≠ hd.ESP_OK then
              [Event.i2c_new_master_bus bus_cfg, Event.printf "I2C bus init failed\n"]
            else
              [Event.i2c_new_master_bus bus_cfg, Event.i2c_master_bus_add_device dev_cfg,
               Event.printf "Add device failed\n"])
      ∧ outputLines (app_main hd s cs).trace = 1
      ∧ (app_main hd s cs).trace.countP isBusTransaction = 0
      ∧ (app_main hd s cs).trace.countP isEngineCall = 0
      ∧ (app_main hd s cs).trace.countP isDelay = 0
      ∧ Event.printf csv_header ∉ (app_main hd s cs).trace := by
  by_cases h1 : s.new_master_bus = hd.ESP_OK
  · have h2 : s.add_device ≠ hd.ESP_OK := by
      rcases h with h | h
      · exact absurd h1 h
      · exact h
    simp [app_main, h1, h2, outputLines, isOutputLine, isBusTransaction, isEngineCall, isDelay,
      csv_header]
  · simp [app_main, h1, outputLines, isOutputLine, isBusTransaction, isEngineCall, isDelay,
      csv_header]

theorem C10_bus_setup_failure_fatal_witness :
    (app_main hd0 startup_bus_failed [cycle_ok]).returned = true
      ∧ (app_main hd0 startup_bus_failed [cycle_ok]).trace
          = (if startup_bus_failed.new_master_bus ≠ hd0.ESP_OK then
              [Event.i2c_new_master_bus bus_cfg, Event.printf "I2C bus init failed\n"]
            else
              [Event.i2c_new_master_bus bus_cfg, Event.i2c_master_bus_add_device dev_cfg,
               Event.printf "Add device failed\n"])
      ∧ outputLines (app_main hd0 startup_bus_failed [cycle_ok]).trace = 1
      ∧ (app_main hd0 startup_bus_failed [cycle_ok]).trace.countP isBusTransaction = 0
      ∧ (app_main hd0 startup_bus_failed [cycle_ok]).trace.countP isEngineCall = 0
      ∧ (app_main hd0 startup_bus_failed [cycle_ok]).trace.countP isDelay = 0
      ∧ Event.printf csv_header ∉ (app_main hd0 startup_bus_failed [cycle_ok]).trace :=
  C10_bus_setup_failure_fatal hd0 startup_bus_failed [cycle_ok] (Or.inl (by decide))

end Firmware
